import Mathlib

/-!
Shallow embedding of the slang-face session and message-delivery core:
`TokenService` (src/src/services/tokenService.ts), `LiveKitService`
(the connection manager), and `ChatService`
(src/src/services/chatService.ts), together with the configuration
constants from src/src/config/constants.ts.  Asynchronous methods are
modelled as explicit state-transformers; the network and the transport
are modelled as outcome oracles passed in as parameters; timers are
recorded as pending actions in the state.
-/

deriving instance DecidableEq for Except

namespace SlangFace

/-- A parsed JSON value, the result of `JSON.parse` on a UTF-8 payload.
The UTF-8 encode/decode and stringify/parse round-trip of the data
channel is treated as the identity on this abstract value. -/
inductive JValue where
  | jnull
  | jbool (b : Bool)
  | jnum (n : Int)
  | jstr (s : String)
  | jobj (fields : List (String × JValue))

/-- Field lookup on a parsed JSON object (property access on the parsed value). -/
def JValue.getField : JValue → String → Option JValue
  | .jobj fs, k => fs.lookup k
  | _, _ => none

/-- JavaScript truthiness of a JSON value, as tested by `if (parsed.type)`. -/
def JValue.truthy : JValue → Bool
  | .jnull => false
  | .jbool b => b
  | .jnum n => decide (n ≠ 0)
  | .jstr s => decide (s ≠ "")
  | .jobj _ => true

/-- Extract a field when it is a JSON string. -/
def JValue.getStrField (j : JValue) (k : String) : Option String :=
  match j.getField k with
  | some (.jstr s) => some s
  | _ => none

/-- ChatMessage from src/src/types/chat.ts: `id`, `senderId`,
optional `senderName`, `text`, epoch-millis `ts`. -/
structure ChatMessage where
  id : String
  senderId : String
  senderName : Option String := none
  text : String
  ts : Int
deriving DecidableEq, Repr

/-- Error code of an `AppError` (TS `string | number`). -/
inductive ErrorCode where
  | str (s : String)
  | num (n : Nat)
deriving DecidableEq, Repr

/-- AppError from src/src/utils/errorHandler.ts, reduced to the message
and code that the claims mention. -/
structure AppError where
  message : String
  code : Option ErrorCode
deriving DecidableEq, Repr

/-- ErrorHandler.handleNetworkError: a NETWORK_ERROR AppError. -/
def networkAppError : AppError :=
  { message := "Network connection failed", code := some (.str "NETWORK_ERROR") }

/-! ## APP_CONFIG (src/src/config/constants.ts, lines 27-32) -/

def APP_CONFIG_MAX_RETRY_ATTEMPTS : Nat := 3
def APP_CONFIG_RETRY_BASE_DELAY : Nat := 1000
def APP_CONFIG_CONNECTION_TIMEOUT : Nat := 10000
def APP_CONFIG_TOKEN_REFRESH_BUFFER : Nat := 60000

/-! ## TokenService (src/src/services/tokenService.ts) -/

/-- Body of the credential endpoint's JSON response, reduced to the
fields `requestToken` inspects. -/
structure TokenResponse where
  token : Option String
  expires_at : Option Int
deriving DecidableEq, Repr

/-- An HTTP response as seen by `fetch` when the request settles. -/
structure HttpResponse where
  status : Nat
  body : TokenResponse
deriving DecidableEq, Repr

/-- Response.ok: status in the 2xx range. -/
def HttpResponse.ok (r : HttpResponse) : Bool :=
  decide (200 ≤ r.status) && decide (r.status < 300)

/-- Error thrown by a `fetch` call that does not settle with a response
(abort on timeout, network failure, ...). -/
structure FetchError where
  name : String
  message : String
deriving DecidableEq, Repr

/-- Outcome of one `fetch` call inside `fetchWithRetry`. -/
inductive FetchOutcome where
  | success (resp : HttpResponse)
  | failure (err : FetchError)
deriving DecidableEq, Repr

/-- The retry condition of `fetchWithRetry`: retry when the thrown
error's name is AbortError, or its message contains NetworkError;
every other thrown error breaks the loop. -/
def transientFetchError (e : FetchError) : Bool :=
  e.name == "AbortError" || decide (1 < (e.message.splitOn "NetworkError").length)

/-- Observable trace of one `fetchWithRetry` call: how many `fetch`
calls were made, the actual waits between them, and the final result. -/
structure RetryTrace where
  attempts : Nat
  waits : List Nat
  result : Except AppError HttpResponse
deriving DecidableEq, Repr

/-- The retry loop of TokenService.fetchWithRetry (lines 140-184).
`outcomes i` is the result of the `fetch` on attempt `i` (1-based);
`jitter i` is the value of `Math.random() * 250` before attempt
`i + 1`.  `remaining` counts the attempts still allowed after the
current one, so the loop starts with
`remaining = MAX_RETRY_ATTEMPTS - 1`; `delay` starts at
RETRY_BASE_DELAY and doubles, capped at 8000, after each wait. -/
def fetchWithRetryGo (outcomes : Nat → FetchOutcome) (jitter : Nat → Nat)
    (attempt : Nat) (remaining : Nat) (delay : Nat) (waitsRev : List Nat)
    (calls : Nat) : RetryTrace :=
  match outcomes attempt with
  | .success r => ⟨calls + 1, waitsRev.reverse, .ok r⟩
  | .failure e =>
    match remaining with
    | 0 => ⟨calls + 1, waitsRev.reverse, .error networkAppError⟩
    | r + 1 =>
      if transientFetchError e then
        fetchWithRetryGo outcomes jitter (attempt + 1) r (min (delay * 2) 8000)
          ((delay + jitter attempt) :: waitsRev) (calls + 1)
      else ⟨calls + 1, waitsRev.reverse, .error networkAppError⟩

/-- TokenService.fetchWithRetry entry point. -/
def fetchWithRetry (outcomes : Nat → FetchOutcome) (jitter : Nat → Nat) : RetryTrace :=
  fetchWithRetryGo outcomes jitter 1 (APP_CONFIG_MAX_RETRY_ATTEMPTS - 1)
    APP_CONFIG_RETRY_BASE_DELAY [] 0

/-- ErrorHandler.handleApiError: an AppError whose code is the HTTP status. -/
def handleApiError (r : HttpResponse) : AppError :=
  { message := "API Error: " ++ toString r.status, code := some (.num r.status) }

/-- Observable trace of one `requestToken` call. -/
structure RequestTrace where
  attempts : Nat
  result : Except AppError TokenResponse
deriving DecidableEq, Repr

/-- TokenService.requestToken (lines 28-75), from the `fetchWithRetry`
call onward: a settled non-2xx response throws `handleApiError`
(no retry), a 2xx response without a token field throws
INVALID_TOKEN, otherwise the body is returned. -/
def requestToken (outcomes : Nat → FetchOutcome) (jitter : Nat → Nat) : RequestTrace :=
  let t := fetchWithRetry outcomes jitter
  match t.result with
  | .error e => ⟨t.attempts, .error e⟩
  | .ok resp =>
    if resp.ok then
      match resp.body.token with
      | none => ⟨t.attempts, .error ⟨"Invalid token response", some (.str "INVALID_TOKEN")⟩⟩
      | some _ => ⟨t.attempts, .ok resp.body⟩
    else ⟨t.attempts, .error (handleApiError resp)⟩

/-- Oracle under which every fetch attempt fails with an abort (timeout). -/
def alwaysAbort : Nat → FetchOutcome :=
  fun _ => .failure ⟨"AbortError", "The operation was aborted"⟩

/-- Oracle with zero backoff jitter. -/
def zeroJitter : Nat → Nat := fun _ => 0

/-- Oracle under which every fetch settles with the given status and a token body. -/
def settledWithStatus (status : Nat) : Nat → FetchOutcome :=
  fun _ => .success ⟨status, some "tok", none⟩

/-! ## LiveKitService, the connection manager (src/unnamed/part_001) -/

/-- ConnectionState from src/src/types (the api types):
disconnected, connecting, connected, reconnecting, failed. -/
inductive ConnectionState where
  | disconnected
  | connecting
  | connected
  | reconnecting
  | failed
deriving DecidableEq, Repr

/-- Observable state of the LiveKitService singleton: whether a Room
object exists (`room !== null`), the connection state, the reconnect
counter, whether audio-level monitoring is running, whether
`tokenService.clearToken()` has been invoked, the connection-state
change events emitted to subscribers so far, and how many times
`room.connect` has been invoked on the transport. -/
structure LKState where
  room : Bool
  connectionState : ConnectionState
  reconnectAttempts : Nat
  audioMonitoring : Bool
  tokenCleared : Bool
  stateEvents : List ConnectionState
  transportConnects : Nat
deriving DecidableEq, Repr

/-- The state of a freshly constructed LiveKitService. -/
def initLK : LKState :=
  { room := false, connectionState := .disconnected, reconnectAttempts := 0
    audioMonitoring := false, tokenCleared := false, stateEvents := []
    transportConnects := 0 }

/-- LiveKitService.updateConnectionState (part_001 lines 444-453):
mutate and emit only when the new state differs from the current one. -/
def updateConnectionState (st : LKState) (s : ConnectionState) : LKState :=
  if st.connectionState ≠ s then
    { st with connectionState := s, stateEvents := st.stateEvents ++ [s] }
  else st

/-- LiveKitService.connect (part_001 lines 74-110).  `tokenOk` is the
outcome of `tokenService.getValidToken` and `transportOk` the outcome
of `room.connect`; the returned Bool is true when the promise
resolves, false when it rejects with the wrapped error.  The method
consults no current state before connecting: it always creates or
reuses the room, transitions to `connecting`, and invokes the
transport connect. -/
def LiveKitService.connect (st : LKState) (tokenOk : Bool) (transportOk : Bool) :
    LKState × Bool :=
  if tokenOk then
    let st1 := { st with room := true }
    let st2 := updateConnectionState st1 .connecting
    let st3 := { st2 with transportConnects := st2.transportConnects + 1 }
    if transportOk then
      ({ updateConnectionState st3 .connected with reconnectAttempts := 0 }, true)
    else (updateConnectionState st3 .failed, false)
  else (updateConnectionState st .failed, false)

/-- LiveKitService.disconnect (part_001 lines 115-145).
`transportOk` is the outcome of `room.disconnect`.  Audio-level
monitoring is stopped first; if the transport disconnect throws, the
catch block re-throws the wrapped error and none of the remaining
steps (room release, token clear, state transition) run. -/
def LiveKitService.disconnect (st : LKState) (transportOk : Bool) :
    LKState × Bool :=
  let st1 := { st with audioMonitoring := false }
  if st1.room then
    if transportOk then
      let st2 := { st1 with room := false, tokenCleared := true }
      (updateConnectionState st2 .disconnected, true)
    else (st1, false)
  else
    let st2 := { st1 with tokenCleared := true }
    (updateConnectionState st2 .disconnected, true)

/-- Fold a list of requested connection states through
`updateConnectionState`, modelling an arbitrary sequence of internal
state-update calls. -/
def runStateUpdates (st : LKState) : List ConnectionState → LKState
  | [] => st
  | s :: rest => runStateUpdates (updateConnectionState st s) rest

/-! ## ChatService (src/src/services/chatService.ts) -/

/-- Modelled from the spec: `CHAT_CONFIG` is imported by chatService.ts
from ../config/constants but its definition is not among the sources.
The spec fixes only `maxAttempts` (default 3), the backoff shape
`base * 2 ^ (attempts - 1)` with a cap, and that history is bounded;
all values are therefore kept as parameters of the model. -/
structure ChatConfig where
  maxRetryAttempts : Nat
  retryBaseDelay : Nat
  maxRetryDelay : Nat
  messageTimeout : Nat
  failedMessageCleanupDelay : Nat
  deliveredMessageCleanupDelay : Nat
  deliveryConfirmationTimeout : Nat
  typingIndicatorTimeout : Nat
  maxHistorySize : Nat
deriving DecidableEq, Repr

/-- MessageStatus from chatService.ts. -/
inductive MessageStatus where
  | pending
  | sent
  | delivered
  | failed
deriving DecidableEq, Repr

/-- SendMessageOptions, reduced to the `timeout` field the delivery
path reads. -/
structure SendMessageOptions where
  timeout : Option Nat := none
deriving DecidableEq, Repr

/-- QueuedMessage from chatService.ts: the message, its status, the
attempt counter, the enqueue timestamp, and the send options. -/
structure QueuedMessage where
  message : ChatMessage
  status : MessageStatus
  attempts : Nat
  timestamp : Int
  options : SendMessageOptions
deriving DecidableEq, Repr

/-- One invocation of a ChatServiceEventHandlers callback. -/
inductive ChatEvent where
  | messageReceived (m : ChatMessage)
  | messageSent (m : ChatMessage)
  | messageDelivered (id : String)
  | messageFailed (id : String)
  | connectionChanged (isConnected : Bool)
  | typingIndicator (senderId : String) (isTyping : Bool)
deriving DecidableEq, Repr

/-- The callback of a pending `setTimeout` in chatService.ts. -/
inductive TimerAction where
  | deliveryTimeout (messageId : String)
  | purgeFromQueue (messageId : String)
  | retryProcess (messageId : String)
  | typingAutoClear
deriving DecidableEq, Repr

/-- A scheduled timer: its delay in ms and its callback. -/
structure Timer where
  delay : Nat
  action : TimerAction
deriving DecidableEq, Repr

/-- Observable state of the ChatService singleton.  The `Map` message
queue is a list in insertion order with unique message ids;
`events` records handler invocations in order; `sentWire` records the
JSON values handed to `livekitService.sendChatMessage` in order;
`timers` records scheduled `setTimeout` callbacks. -/
structure ChatState where
  messageQueue : List QueuedMessage
  messageHistory : List ChatMessage
  isConnected : Bool
  currentUserId : Option String
  isTyping : Bool
  events : List ChatEvent
  sentWire : List JValue
  timers : List Timer

/-- A freshly constructed ChatService after `initialize(userId)`. -/
def initChat (userId : String) : ChatState :=
  { messageQueue := [], messageHistory := [], isConnected := false
    currentUserId := some userId, isTyping := false, events := []
    sentWire := [], timers := [] }

/-- The TS expression `this.currentUserId || 'unknown'` (empty string
is falsy). -/
def orUnknown : Option String → String
  | some u => if u = "" then "unknown" else u
  | none => "unknown"

/-- Escape of a character inside a JSON string literal (quote and
backslash, the escapes `JSON.stringify` needs for the payloads here). -/
def jsonEscapeChar (c : Char) : String :=
  if c = '"' then "\\\"" else if c = '\\' then "\\\\" else String.singleton c

/-- Escape of a string for embedding in a JSON string literal. -/
def jsonEscape (s : String) : String :=
  String.join (s.data.map jsonEscapeChar)

/-- DeliveryReceipt from chatService.ts: discriminator field `type`
with value delivery_receipt, plus `messageId` and `timestamp`. -/
structure DeliveryReceipt where
  messageId : String
  timestamp : Int
deriving DecidableEq, Repr

/-- TypingIndicator from chatService.ts: discriminator field `type`
with value typing_indicator, plus `senderId`, `isTyping`, `timestamp`. -/
structure TypingIndicator where
  senderId : String
  isTyping : Bool
  timestamp : Int
deriving DecidableEq, Repr

/-- JSON.stringify of a DeliveryReceipt object. -/
def deliveryReceiptJson (r : DeliveryReceipt) : String :=
  "\x7b\"type\":\"delivery_receipt\",\"messageId\":\"" ++ jsonEscape r.messageId
    ++ "\",\"timestamp\":" ++ toString r.timestamp ++ "\x7d"

/-- JSON.stringify of a TypingIndicator object. -/
def typingIndicatorJson (t : TypingIndicator) : String :=
  "\x7b\"type\":\"typing_indicator\",\"senderId\":\"" ++ jsonEscape t.senderId
    ++ "\",\"isTyping\":" ++ (if t.isTyping then "true" else "false")
    ++ ",\"timestamp\":" ++ toString t.timestamp ++ "\x7d"

/-- The JSON value that `livekitService.sendChatMessage` serializes
onto the data channel for a ChatMessage (part_001 lines 232-250):
the message object itself, with `senderName` omitted when absent. -/
def ChatMessage.toWire (m : ChatMessage) : JValue :=
  .jobj ([("id", .jstr m.id), ("senderId", .jstr m.senderId)]
    ++ (match m.senderName with
        | some n => [("senderName", JValue.jstr n)]
        | none => [])
    ++ [("text", .jstr m.text), ("ts", .jnum m.ts)])

/-- The wire value produced by ChatService.sendDeliveryReceipt
(lines 339-361): the receipt JSON is placed in the `text` field of a
fresh chat-message envelope, which is what is serialized and sent. -/
def sendDeliveryReceiptWire (userId : Option String) (mid : String)
    (freshId : String) (now : Int) : JValue :=
  ChatMessage.toWire
    { id := freshId, senderId := orUnknown userId, senderName := none
      text := deliveryReceiptJson { messageId := mid, timestamp := now }, ts := now }

/-- The wire value produced by ChatService.sendTypingIndicator
(lines 366-405): the indicator JSON is placed in the `text` field of a
fresh chat-message envelope, which is what is serialized and sent. -/
def sendTypingIndicatorWire (userId : Option String) (isTyping : Bool)
    (freshId : String) (now : Int) : JValue :=
  ChatMessage.toWire
    { id := freshId, senderId := orUnknown userId, senderName := none
      text := typingIndicatorJson
        { senderId := orUnknown userId, isTyping := isTyping, timestamp := now }
      ts := now }

/-- ChatService.addToHistory (lines 427-448): drop exact-id
duplicates, append, and trim the oldest entries beyond the bound. -/
def addToHistory (cfg : ChatConfig) (hist : List ChatMessage) (m : ChatMessage) :
    List ChatMessage :=
  if hist.any (fun x => x.id == m.id) then hist
  else
    let h := hist ++ [m]
    if cfg.maxHistorySize < h.length then h.drop (h.length - cfg.maxHistorySize) else h

/-- ChatService.isValidChatMessage (lines 410-422) applied to a parsed
payload: the four required fields must be present with the right
runtime types, strings non-empty and `ts` positive. -/
def isValidChatMessage (j : JValue) : Bool :=
  match j.getField "id", j.getField "senderId", j.getField "text", j.getField "ts" with
  | some (.jstr id), some (.jstr sid), some (.jstr text), some (.jnum ts) =>
    decide (0 < id.length) && decide (0 < sid.length) &&
      decide (0 < text.length) && decide (0 < ts)
  | _, _, _, _ => false

/-- The `parsed as ChatMessage` cast: read the ChatMessage fields out
of the parsed payload (total; only used after validation passes). -/
def toChatMessage (j : JValue) : ChatMessage :=
  { id := (j.getStrField "id").getD ""
    senderId := (j.getStrField "senderId").getD ""
    senderName := j.getStrField "senderName"
    text := (j.getStrField "text").getD ""
    ts := match j.getField "ts" with | some (.jnum n) => n | _ => 0 }

/-- Update the queue entry with the given id in place (Map.set on an
existing key). -/
def updateQueued (q : List QueuedMessage) (mid : String)
    (f : QueuedMessage → QueuedMessage) : List QueuedMessage :=
  q.map (fun qm => if qm.message.id == mid then f qm else qm)

/-- Map.delete on the message queue. -/
def purgeFromQueue (st : ChatState) (mid : String) : ChatState :=
  { st with messageQueue := st.messageQueue.filter (fun q => !(q.message.id == mid)) }

/-- ChatService.sendQueuedMessage (lines 147-220) acting on one queue
entry.  `sendOk mid n` is the outcome of attempt `n` for message
`mid` (`false` covers both a rejected transport send and the timeout
race).  On success: status sent, history append, onMessageSent,
delivery-confirmation timer.  On failure with the attempt budget
exhausted: status failed, onMessageFailed, purge timer after the
cleanup delay.  On earlier failure: status failed and a retry timer
with backoff `min (base * 2 ^ (attempts - 1)) cap`. -/
def sendQueuedMessage (cfg : ChatConfig) (sendOk : String → Nat → Bool)
    (st : ChatState) (qm : QueuedMessage) : ChatState :=
  let attempts' := qm.attempts + 1
  let mid := qm.message.id
  if sendOk mid attempts' then
    { st with
      messageQueue := updateQueued st.messageQueue mid
        (fun q => { q with attempts := attempts', status := .sent })
      sentWire := st.sentWire ++ [qm.message.toWire]
      messageHistory := addToHistory cfg st.messageHistory qm.message
      events := st.events ++ [.messageSent qm.message]
      timers := st.timers ++ [⟨cfg.deliveryConfirmationTimeout, .deliveryTimeout mid⟩] }
  else if cfg.maxRetryAttempts ≤ attempts' then
    { st with
      messageQueue := updateQueued st.messageQueue mid
        (fun q => { q with attempts := attempts', status := .failed })
      events := st.events ++ [.messageFailed mid]
      timers := st.timers ++ [⟨cfg.failedMessageCleanupDelay, .purgeFromQueue mid⟩] }
  else
    { st with
      messageQueue := updateQueued st.messageQueue mid
        (fun q => { q with attempts := attempts', status := .failed })
      timers := st.timers ++
        [⟨min (cfg.retryBaseDelay * 2 ^ (attempts' - 1)) cfg.maxRetryDelay,
          .retryProcess mid⟩] }

/-- The comparator `(a, b) => a.timestamp - b.timestamp`: ascending
enqueue timestamp. -/
def tsLe (a b : QueuedMessage) : Prop := a.timestamp ≤ b.timestamp

instance : DecidableRel tsLe :=
  fun a b => inferInstanceAs (Decidable (a.timestamp ≤ b.timestamp))

instance : IsTotal QueuedMessage tsLe :=
  ⟨fun a b => Int.le_total a.timestamp b.timestamp⟩

instance : IsTrans QueuedMessage tsLe :=
  ⟨fun _ _ _ hab hbc => le_trans hab hbc⟩

/-- The snapshot sort `Array.prototype.sort((a, b) => a.timestamp -
b.timestamp)`.  The JS sort is stable (equal-timestamp entries keep
their Map-insertion, i.e. FIFO, order), which insertion sort with the
non-strict comparator reproduces. -/
def sortByTimestamp (l : List QueuedMessage) : List QueuedMessage :=
  l.insertionSort tsLe

/-- ChatService.processMessageQueue (lines 122-142): a no-op unless
connected; otherwise one pass over the pending/failed entries in
ascending enqueue-time order, attempting each (per-entry errors are
caught, so the pass continues). -/
def processMessageQueue (cfg : ChatConfig) (sendOk : String → Nat → Bool)
    (st : ChatState) : ChatState :=
  if st.isConnected then
    let pending := sortByTimestamp (st.messageQueue.filter
      (fun qm => qm.status == .pending || qm.status == .failed))
    pending.foldl (fun s qm => sendQueuedMessage cfg sendOk s qm) st
  else st

/-- The first half of ChatService.sendMessage (lines 88-111): build
the ChatMessage from the fresh uuid `freshId` and `Date.now()` value
`now`, and insert the pending queue entry. -/
def sendMessageEnqueue (st : ChatState) (text : String) (freshId : String)
    (now : Int) (options : SendMessageOptions) : ChatState × String :=
  let message : ChatMessage :=
    { id := freshId, senderId := orUnknown st.currentUserId, senderName := none
      text := text.trim, ts := now }
  ({ st with messageQueue := st.messageQueue ++
      [{ message := message, status := .pending, attempts := 0
         timestamp := now, options := options }] },
   freshId)

/-- ChatService.sendMessage (lines 88-117): enqueue, then `await` one
full queue-processing pass, then resolve with the message id. -/
def sendMessage (cfg : ChatConfig) (sendOk : String → Nat → Bool) (st : ChatState)
    (text : String) (freshId : String) (now : Int) (options : SendMessageOptions) :
    ChatState × String :=
  let r := sendMessageEnqueue st text freshId now options
  (processMessageQueue cfg sendOk r.1, r.2)

/-- ChatService.handleDeliveryReceipt (lines 305-320): promote a
`sent` entry to `delivered`, notify, and schedule its purge. -/
def handleDeliveryReceipt (cfg : ChatConfig) (st : ChatState) (j : JValue) : ChatState :=
  match j.getStrField "messageId" with
  | none => st
  | some mid =>
    match st.messageQueue.find? (fun q => q.message.id == mid) with
    | some qm =>
      if qm.status = .sent then
        { st with
          messageQueue := updateQueued st.messageQueue mid
            (fun q => { q with status := .delivered })
          events := st.events ++ [.messageDelivered mid]
          timers := st.timers ++ [⟨cfg.deliveredMessageCleanupDelay, .purgeFromQueue mid⟩] }
      else st
    | none => st

/-- ChatService.handleTypingIndicator (lines 325-334): surface the
indicator unless it carries the local identity. -/
def handleTypingIndicator (st : ChatState) (j : JValue) : ChatState :=
  let sid := (j.getStrField "senderId").getD ""
  let isT := match j.getField "isTyping" with
    | some v => v.truthy
    | none => false
  if some sid ≠ st.currentUserId then
    { st with events := st.events ++ [.typingIndicator sid isT] }
  else st

/-- ChatService.handleSystemMessage (lines 289-300): dispatch on the
`type` discriminator; unknown types are logged and dropped. -/
def handleSystemMessage (cfg : ChatConfig) (st : ChatState) (j : JValue) : ChatState :=
  match j.getField "type" with
  | some (.jstr "delivery_receipt") => handleDeliveryReceipt cfg st j
  | some (.jstr "typing_indicator") => handleTypingIndicator st j
  | _ => st

/-- The chat-message branch of handleIncomingData: validate, send a
delivery receipt when the sender is not the local identity, append to
history (deduplicated), and surface onMessageReceived. -/
def handleChatPayload (cfg : ChatConfig) (st : ChatState) (parsed : JValue)
    (freshId : String) (now : Int) : ChatState :=
  if isValidChatMessage parsed then
    let m := toChatMessage parsed
    let st1 :=
      if some m.senderId ≠ st.currentUserId then
        { st with sentWire := st.sentWire ++
            [sendDeliveryReceiptWire st.currentUserId m.id freshId now] }
      else st
    let st2 := { st1 with messageHistory := addToHistory cfg st1.messageHistory m }
    { st2 with events := st2.events ++ [.messageReceived m] }
  else st

/-- ChatService.handleIncomingData (lines 244-284) on an already
parsed payload: a truthy `type` field routes to the system-message
handler and returns; otherwise the payload takes the chat-message
branch.  `freshId` and `now` feed a delivery receipt when one is sent. -/
def handleIncomingData (cfg : ChatConfig) (st : ChatState) (parsed : JValue)
    (freshId : String) (now : Int) : ChatState :=
  match parsed.getField "type" with
  | some t =>
    if t.truthy then handleSystemMessage cfg st parsed
    else handleChatPayload cfg st parsed freshId now
  | none => handleChatPayload cfg st parsed freshId now

/-- ChatService.sendTypingIndicator (lines 366-405): edge-triggered on
`isTyping`; sends the wrapped indicator and, when typing starts,
resets the auto-clear timer. -/
def isTypingTimer (t : Timer) : Bool :=
  match t.action with
  | .typingAutoClear => true
  | _ => false

/-- ChatService.sendTypingIndicator itself. -/
def sendTypingIndicator (cfg : ChatConfig) (st : ChatState) (isTyping : Bool)
    (freshId : String) (now : Int) : ChatState :=
  if st.isTyping = isTyping then st
  else
    let st1 := { st with isTyping := isTyping }
    let st2 := { st1 with sentWire := st1.sentWire ++
      [sendTypingIndicatorWire st1.currentUserId isTyping freshId now] }
    if isTyping then
      { st2 with timers := st2.timers.eraseP isTypingTimer ++
          [⟨cfg.typingIndicatorTimeout, .typingAutoClear⟩] }
    else st2

/-- The onConnectionStateChanged handler installed by
ChatService.setupLiveKitIntegration (lines 453-475): recompute
`isConnected`, flush the queue on a transition into connected, then
surface the connection-change event. -/
def handleConnectionStateChanged (cfg : ChatConfig) (sendOk : String → Nat → Bool)
    (st : ChatState) (s : ConnectionState) : ChatState :=
  let wasConnected := st.isConnected
  let nowConnected := s = .connected
  let st1 := { st with isConnected := nowConnected }
  let st2 := if nowConnected ∧ ¬wasConnected then processMessageQueue cfg sendOk st1 else st1
  { st2 with events := st2.events ++ [.connectionChanged nowConnected] }

/-- Recognizer for a pending retry timer. -/
def isRetryTimer (t : Timer) : Bool :=
  match t.action with
  | .retryProcess _ => true
  | _ => false

/-- Fire the earliest pending retry timer (the `setTimeout` scheduled
on a non-terminal failure, lines 211-215): if the message is still in
the queue, run a queue-processing pass. -/
def fireNextRetry (cfg : ChatConfig) (sendOk : String → Nat → Bool)
    (st : ChatState) : ChatState :=
  match st.timers.find? isRetryTimer with
  | some ⟨_, .retryProcess mid⟩ =>
    let st1 : ChatState := { st with timers := st.timers.eraseP isRetryTimer }
    if st1.messageQueue.any (fun q => q.message.id == mid) then
      processMessageQueue cfg sendOk st1
    else st1
  | _ => st

/-! ## Concrete instances and observation helpers used by the claims -/

/-- A concrete chat configuration with `maxAttempts = 3`. -/
def cfg0 : ChatConfig := ⟨3, 1000, 8000, 10000, 5000, 5000, 3000, 3000, 100⟩

/-- A transport oracle under which every send succeeds. -/
def alwaysOk : String → Nat → Bool := fun _ _ => true

/-- A transport oracle under which every send fails. -/
def neverOk : String → Nat → Bool := fun _ _ => false

/-- Number of onMessageReceived invocations recorded so far. -/
def countReceivedEvents (st : ChatState) : Nat :=
  st.events.countP (fun e => match e with | .messageReceived _ => true | _ => false)

/-- Number of onMessageFailed invocations recorded so far. -/
def countFailedEvents (st : ChatState) : Nat :=
  st.events.countP (fun e => match e with | .messageFailed _ => true | _ => false)

/-- Number of history entries carrying the given id. -/
def countHistoryWithId (st : ChatState) (mid : String) : Nat :=
  st.messageHistory.countP (fun m => m.id == mid)

/-- A valid inbound chat payload from the remote peer. -/
def dupPayload : JValue :=
  .jobj [("id", .jstr "m1"), ("senderId", .jstr "bob"),
         ("text", .jstr "hi"), ("ts", .jnum 1)]

/-- A local chat state whose history already holds the message of
`dupPayload`. -/
def stWithM1 : ChatState :=
  { initChat "alice" with
    messageHistory := [{ id := "m1", senderId := "bob", senderName := none
                         text := "hi", ts := 1 }] }

/-- A connected chat state with no traffic yet. -/
def stConnected : ChatState := { initChat "u" with isConnected := true }

/-- A LiveKitService state that is connected with a live room. -/
def lkConnected : LKState :=
  { initLK with room := true, connectionState := .connected }

/-- The chat configuration of the C8 scenario: `maxAttempts = 3` and
every other (source-unavailable) configuration value arbitrary. -/
def cfgWith3 (b c d e f g h2 k : Nat) : ChatConfig := ⟨3, b, c, d, e, f, g, h2, k⟩

/-- C8 scenario, after `sendMessage` resolves (first delivery attempt
included): one message, every attempt failing. -/
def c8AfterSend (b c d e f g h2 k : Nat) : ChatState :=
  (sendMessage (cfgWith3 b c d e f g h2 k) neverOk stConnected "hello" "A" 0 {}).1

/-- C8 scenario after the first retry timer fires. -/
def c8AfterRetry1 (b c d e f g h2 k : Nat) : ChatState :=
  fireNextRetry (cfgWith3 b c d e f g h2 k) neverOk (c8AfterSend b c d e f g h2 k)

/-- C8 scenario after the second retry timer fires (third attempt). -/
def c8AfterRetry2 (b c d e f g h2 k : Nat) : ChatState :=
  fireNextRetry (cfgWith3 b c d e f g h2 k) neverOk (c8AfterRetry1 b c d e f g h2 k)

/-- C8 scenario after trying to fire a further retry timer. -/
def c8AfterRetry3 (b c d e f g h2 k : Nat) : ChatState :=
  fireNextRetry (cfgWith3 b c d e f g h2 k) neverOk (c8AfterRetry2 b c d e f g h2 k)

/-- C9 scenario: messages A (t = 0) and B (t = 10) enqueued while
disconnected. -/
def c9AfterEnqueues (cfg : ChatConfig) : ChatState :=
  (sendMessage cfg alwaysOk
    ((sendMessage cfg alwaysOk (initChat "u") "first" "A" 0 {}).1)
    "second" "B" 10 {}).1

/-- C9 scenario: the ConnectionManager reports `connected` at t = 50. -/
def c9AfterConnect (cfg : ChatConfig) : ChatState :=
  handleConnectionStateChanged cfg alwaysOk (c9AfterEnqueues cfg) .connected

/-! ## Helper lemmas -/

/-- A nonempty string has positive length. -/
theorem stringLengthPos (s : String) (h : s ≠ "") : 0 < s.length := by
  cases s with
  | mk data =>
    cases data with
    | nil => exact absurd rfl h
    | cons a l => simp [String.length]

/-- The senderId fallback `currentUserId || 'unknown'` is never empty. -/
theorem orUnknown_length_pos (o : Option String) : 0 < (orUnknown o).length := by
  match o with
  | none => decide
  | some u =>
    by_cases hu : u = ""
    · have h : orUnknown (some u) = "unknown" := by simp [orUnknown, hu]
      rw [h]; decide
    · simpa [orUnknown, hu] using stringLengthPos u hu

/-- String append adds lengths. -/
theorem stringLengthAppend (a b : String) : (a ++ b).length = a.length + b.length :=
  String.length_append a b

/-- A serialized delivery receipt is a nonempty string. -/
theorem deliveryReceiptJson_length_pos (r : DeliveryReceipt) :
    0 < (deliveryReceiptJson r).length := by
  unfold deliveryReceiptJson
  simp only [stringLengthAppend]
  have h : 0 < ("\x7b\"type\":\"delivery_receipt\",\"messageId\":\"").length := by decide
  omega

/-- A serialized typing indicator is a nonempty string. -/
theorem typingIndicatorJson_length_pos (t : TypingIndicator) :
    0 < (typingIndicatorJson t).length := by
  unfold typingIndicatorJson
  simp only [stringLengthAppend]
  have h : 0 < ("\x7b\"type\":\"typing_indicator\",\"senderId\":\"").length := by decide
  omega

/-! ## Claim C3: credential retry policy -/

/-- Claim C3 as stated is false on the code: with every fetch attempt
failing transiently (an AbortError timeout) and zero jitter,
`fetchWithRetry` performs exactly 3 attempts, not the claimed 5, and
the wait before the first retry is 1000 ms, which a base of 500 ms
with a ±250 ms jitter (range 250-750 ms) can never produce; the run
then raises the terminal network error. -/
theorem C3_counterexample :
    (fetchWithRetry alwaysAbort zeroJitter).attempts = 3 ∧
    ¬((fetchWithRetry alwaysAbort zeroJitter).attempts = 5) ∧
    (fetchWithRetry alwaysAbort zeroJitter).waits = [1000, 2000] ∧
    ((fetchWithRetry alwaysAbort zeroJitter).waits.head? = some 1000 ∧
      ¬(250 ≤ 1000 ∧ 1000 ≤ 750)) ∧
    (fetchWithRetry alwaysAbort zeroJitter).result = .error networkAppError := by
  decide

/-- Claim C3 amended: for transient credential-fetch failures (thrown
AbortError or NetworkError errors) the code retries with exponential
backoff of base 1000 ms, factor 2 capped at 8 s, plus a jitter drawn
from [0, 250) ms added to each wait, for at most 3 attempts in total;
when all attempts fail it raises the terminal NETWORK_ERROR AppError. -/
theorem C3_amended_retry_policy (outcomes : Nat → FetchOutcome) (jitter : Nat → Nat)
    (htrans : ∀ i, ∃ e, outcomes i = .failure e ∧ transientFetchError e = true)
    (hjit : ∀ i, jitter i < 250) :
    (fetchWithRetry outcomes jitter).attempts = APP_CONFIG_MAX_RETRY_ATTEMPTS ∧
    (fetchWithRetry outcomes jitter).waits = [1000 + jitter 1, 2000 + jitter 2] ∧
    (fetchWithRetry outcomes jitter).result = .error networkAppError ∧
    ∀ w ∈ (fetchWithRetry outcomes jitter).waits, w < 8000 + 250 := by
  obtain ⟨e1, h1, t1⟩ := htrans 1
  obtain ⟨e2, h2, t2⟩ := htrans 2
  obtain ⟨e3, h3, _⟩ := htrans 3
  have j1 := hjit 1
  have j2 := hjit 2
  simp only [fetchWithRetry, fetchWithRetryGo, h1, h2, h3, t1, t2, if_true,
    APP_CONFIG_MAX_RETRY_ATTEMPTS, APP_CONFIG_RETRY_BASE_DELAY]
  norm_num
  all_goals omega

/-- Witness for C3: the amended retry policy evaluated on the
always-aborting oracle with zero jitter. -/
theorem C3_witness :
    (fetchWithRetry alwaysAbort zeroJitter).attempts = APP_CONFIG_MAX_RETRY_ATTEMPTS ∧
    (fetchWithRetry alwaysAbort zeroJitter).waits = [1000 + zeroJitter 1, 2000 + zeroJitter 2] ∧
    (fetchWithRetry alwaysAbort zeroJitter).result = .error networkAppError ∧
    ∀ w ∈ (fetchWithRetry alwaysAbort zeroJitter).waits, w < 8000 + 250 :=
  C3_amended_retry_policy alwaysAbort zeroJitter
    (fun _ => ⟨⟨"AbortError", "The operation was aborted"⟩, rfl, by decide⟩)
    (fun _ => by show (0 : Nat) < 250; decide)

/-! ## Claim C4: non-2xx handling -/

/-- Claim C4 as stated is false on the code: a request settling with
HTTP 500 — a non-2xx status other than 401/403 — is not retried at
all: the fetch loop returns the settled response on the very first
attempt and `requestToken` throws the API error immediately. -/
theorem C4_counterexample :
    (requestToken (settledWithStatus 500) zeroJitter).attempts = 1 ∧
    ¬(1 < (requestToken (settledWithStatus 500) zeroJitter).attempts) ∧
    (requestToken (settledWithStatus 500) zeroJitter).result =
      .error (handleApiError ⟨500, some "tok", none⟩) := by
  decide

/-- Claim C4 amended: every completed non-2xx response — 401/403 and
all others alike — is fatal for the request: it is returned by the
first fetch attempt without any retry, and `requestToken` raises the
AppError carrying that status.  The retry policy applies only to
fetch-level thrown errors (timeouts, network errors), never to HTTP
status failures. -/
theorem C4_amended_non2xx_never_retried (outcomes : Nat → FetchOutcome)
    (jitter : Nat → Nat) (resp : HttpResponse)
    (hfirst : outcomes 1 = .success resp) (hok : resp.ok = false) :
    (requestToken outcomes jitter).attempts = 1 ∧
    (requestToken outcomes jitter).result = .error (handleApiError resp) := by
  simp [requestToken, fetchWithRetry, fetchWithRetryGo, hfirst, hok]

/-- Witness for C4: a settled 401 response fails after exactly one
attempt with the 401 API error. -/
theorem C4_witness :
    (requestToken (settledWithStatus 401) zeroJitter).attempts = 1 ∧
    (requestToken (settledWithStatus 401) zeroJitter).result =
      .error (handleApiError ⟨401, some "tok", none⟩) :=
  C4_amended_non2xx_never_retried (settledWithStatus 401) zeroJitter
    ⟨401, some "tok", none⟩ rfl (by decide)

/-- A connection-state update leaves every field other than the state
and the event list untouched. -/
theorem updateConnectionState_preserves (s : LKState) (c : ConnectionState) :
    (updateConnectionState s c).room = s.room ∧
    (updateConnectionState s c).transportConnects = s.transportConnects ∧
    (updateConnectionState s c).tokenCleared = s.tokenCleared ∧
    (updateConnectionState s c).audioMonitoring = s.audioMonitoring ∧
    (updateConnectionState s c).reconnectAttempts = s.reconnectAttempts := by
  unfold updateConnectionState
  split <;> simp

/-- After a connection-state update the current state is the requested one. -/
theorem updateConnectionState_connectionState (s : LKState) (c : ConnectionState) :
    (updateConnectionState s c).connectionState = c := by
  unfold updateConnectionState
  split
  · rfl
  · next h => exact not_ne_iff.mp h

/-! ## Claim C5: connect idempotency -/

/-- Claim C5 as stated is false on the code: calling `connect` while
the state is already `connected` is not a no-op — it starts a second
transport connection (the transport-connect count rises from 0 to 1)
and re-emits the `connecting` and `connected` state events. -/
theorem C5_counterexample :
    (LiveKitService.connect lkConnected true true).1.transportConnects = 1 ∧
    ¬((LiveKitService.connect lkConnected true true).1.transportConnects = 0) ∧
    (LiveKitService.connect lkConnected true true).1.stateEvents =
      [.connecting, .connected] ∧
    ¬((LiveKitService.connect lkConnected true true).1 = lkConnected) := by
  decide

/-- Claim C5 amended: `connect` consults no current state before
connecting — from every starting state (including `connecting` and
`connected`), a call with a valid token performs exactly one new
transport connection, and its promise resolves or rejects with the
transport outcome. -/
theorem C5_amended_connect_not_idempotent (st : LKState) (tOk : Bool) :
    (LiveKitService.connect st true tOk).1.transportConnects =
      st.transportConnects + 1 ∧
    (LiveKitService.connect st true tOk).2 = tOk := by
  cases tOk <;>
    simp [LiveKitService.connect, updateConnectionState_preserves]

/-! ## Claim C6: disconnect behaviour -/

/-- Claim C6 as stated is false on the code: when the transport
disconnect fails, `disconnect` rejects (throws the wrapped error to
its caller) and leaves the connection state `connected` and the room
unreleased. -/
theorem C6_counterexample :
    (LiveKitService.disconnect lkConnected false).2 = false ∧
    (LiveKitService.disconnect lkConnected false).1.connectionState = .connected ∧
    ¬((LiveKitService.disconnect lkConnected false).1.connectionState = .disconnected) ∧
    (LiveKitService.disconnect lkConnected false).1.room = true := by
  decide

/-- Claim C6 amended: when the transport disconnect succeeds (or no
room exists) `disconnect` transitions to `disconnected`, releases the
room and clears the token; but when the transport disconnect throws,
`disconnect` re-throws to its caller and leaves the state unchanged
apart from stopping audio-level monitoring. -/
theorem C6_amended_disconnect (st : LKState) :
    ((LiveKitService.disconnect st true).2 = true ∧
     (LiveKitService.disconnect st true).1.connectionState = .disconnected ∧
     (LiveKitService.disconnect st true).1.room = false ∧
     (LiveKitService.disconnect st true).1.tokenCleared = true) ∧
    (st.room = true →
      (LiveKitService.disconnect st false).2 = false ∧
      (LiveKitService.disconnect st false).1 = { st with audioMonitoring := false }) := by
  constructor
  · cases hb : st.room <;>
      simp [LiveKitService.disconnect, hb, updateConnectionState_preserves,
        updateConnectionState_connectionState]
  · intro hroom
    simp [LiveKitService.disconnect, hroom]

/-- Witness for C6: from the connected state with a live room, a
failing transport disconnect rejects and changes nothing but the
audio monitor. -/
theorem C6_witness :
    (LiveKitService.disconnect lkConnected false).2 = false ∧
    (LiveKitService.disconnect lkConnected false).1 =
      { lkConnected with audioMonitoring := false } :=
  (C6_amended_disconnect lkConnected).2 rfl

/-! ## Claim C10: no duplicate state-change events -/

/-- Chain invariant of the connection-state event stream: the events
so far never repeat consecutively and the last event (when any) is
the current state. -/
theorem updateConnectionState_chain (st : LKState) (s : ConnectionState)
    (hc : st.stateEvents.Chain' (fun a b => a ≠ b))
    (hl : ∀ x, st.stateEvents.getLast? = some x → x = st.connectionState) :
    ((updateConnectionState st s).stateEvents.Chain' (fun a b => a ≠ b)) ∧
    (∀ x, (updateConnectionState st s).stateEvents.getLast? = some x →
      x = (updateConnectionState st s).connectionState) := by
  unfold updateConnectionState
  split
  case isTrue hne =>
    constructor
    · refine List.chain'_append.mpr ⟨hc, List.chain'_singleton s, ?_⟩
      intro x hx y hy
      simp only [List.head?_cons, Option.mem_def, Option.some.injEq] at hy
      subst hy
      rw [hl x hx]
      exact hne
    · intro x hx
      simp only [List.getLast?_concat] at hx
      injection hx with h
      exact h.symm
  case isFalse => exact ⟨hc, hl⟩

/-- The chain invariant holds along any sequence of state updates. -/
theorem runStateUpdates_chain (l : List ConnectionState) (st : LKState)
    (hc : st.stateEvents.Chain' (fun a b => a ≠ b))
    (hl : ∀ x, st.stateEvents.getLast? = some x → x = st.connectionState) :
    ((runStateUpdates st l).stateEvents.Chain' (fun a b => a ≠ b)) := by
  induction l generalizing st with
  | nil => exact hc
  | cons s rest ih =>
    have h := updateConnectionState_chain st s hc hl
    exact ih (updateConnectionState st s) h.1 h.2

/-- Claim C10 confirmed: updating the connection state to its current
value changes nothing and emits no event, and along any sequence of
state updates from a fresh service, subscribers never observe two
consecutive notifications carrying the same connection state. -/
theorem C10_no_duplicate_state_events :
    (∀ (st : LKState) (s : ConnectionState),
      st.connectionState = s → updateConnectionState st s = st) ∧
    (∀ l : List ConnectionState,
      ((runStateUpdates initLK l).stateEvents).Chain' (fun a b => a ≠ b)) := by
  constructor
  · intro st s h
    simp [updateConnectionState, h]
  · intro l
    refine runStateUpdates_chain l initLK ?_ ?_
    · simp [initLK]
    · intro x hx
      simp [initLK] at hx

/-- Witness for C10: a same-state update on the fresh service is the
identity, and a concrete update sequence emits no consecutive
duplicates. -/
theorem C10_witness :
    updateConnectionState initLK .disconnected = initLK ∧
    ((runStateUpdates initLK
        [.connecting, .connecting, .connected, .connected]).stateEvents).Chain'
      (fun a b => a ≠ b) :=
  ⟨C10_no_duplicate_state_events.1 initLK .disconnected rfl,
   C10_no_duplicate_state_events.2 [.connecting, .connecting, .connected, .connected]⟩

/-! ## Claim C1: inbound duplicates -/

/-- Claim C1 as stated is false on the code: processing the same
valid inbound payload twice leaves exactly one entry with its id in
history, but surfaces the onMessageReceived event twice — the
duplicate is not appended yet it is re-surfaced (and a second
delivery receipt goes out). -/
theorem C1_counterexample :
    countHistoryWithId
      (handleIncomingData cfg0
        (handleIncomingData cfg0 (initChat "alice") dupPayload "r1" 100)
        dupPayload "r2" 200) "m1" = 1 ∧
    countReceivedEvents
      (handleIncomingData cfg0
        (handleIncomingData cfg0 (initChat "alice") dupPayload "r1" 100)
        dupPayload "r2" 200) = 2 ∧
    ¬(countReceivedEvents
        (handleIncomingData cfg0
          (handleIncomingData cfg0 (initChat "alice") dupPayload "r1" 100)
          dupPayload "r2" 200) = 1) := by
  decide

/-- Claim C1 amended: re-processing a valid inbound chat payload whose
id already occurs in history leaves the history unchanged (so exactly
one entry with that id remains), but the message-received event is
surfaced again on every processing — subscribers observe one event
per receipt, not one event in total. -/
theorem C1_amended_duplicate_resurfaced (cfg : ChatConfig) (st : ChatState)
    (p : JValue) (freshId : String) (now : Int)
    (htype : p.getField "type" = none)
    (hvalid : isValidChatMessage p = true)
    (hdup : (toChatMessage p).id ∈ st.messageHistory.map ChatMessage.id) :
    (handleIncomingData cfg st p freshId now).messageHistory = st.messageHistory ∧
    (handleIncomingData cfg st p freshId now).events =
      st.events ++ [.messageReceived (toChatMessage p)] := by
  have hany : (st.messageHistory.any
      (fun x => x.id == (toChatMessage p).id)) = true := by
    rw [List.any_eq_true]
    obtain ⟨a, ha, hid⟩ := List.mem_map.mp hdup
    exact ⟨a, ha, by simp [hid]⟩
  have hmain : handleIncomingData cfg st p freshId now =
      handleChatPayload cfg st p freshId now := by
    unfold handleIncomingData
    rw [htype]
  rw [hmain]
  unfold handleChatPayload
  simp only [hvalid, if_true]
  by_cases hs : some (toChatMessage p).senderId ≠ st.currentUserId <;>
    simp [hs, addToHistory, hany]

/-- Witness for C1: the duplicate payload against a history that
already holds its message. -/
theorem C1_witness :
    (handleIncomingData cfg0 stWithM1 dupPayload "r2" 200).messageHistory =
      stWithM1.messageHistory ∧
    (handleIncomingData cfg0 stWithM1 dupPayload "r2" 200).events =
      stWithM1.events ++ [.messageReceived (toChatMessage dupPayload)] :=
  C1_amended_duplicate_resurfaced cfg0 stWithM1 dupPayload "r2" 200
    rfl (by decide) (by decide)

/-! ## Claim C2: send does not block -/

/-- Claim C2 as stated is false on the code: when connected with a
transport that accepts the send, the promise returned by
`sendMessage` resolves only after the delivery attempt has completed —
at resolution the entry is already `sent` with one attempt, not
`pending` with zero attempts as a non-blocking return would show. -/
theorem C2_counterexample :
    ((sendMessage cfg0 alwaysOk stConnected "hi" "A" 5 {}).1.messageQueue.map
      (fun q => (q.status, q.attempts)) = [(.sent, 1)]) ∧
    ¬((sendMessage cfg0 alwaysOk stConnected "hi" "A" 5 {}).1.messageQueue.map
      (fun q => (q.status, q.attempts)) = [(.pending, 0)]) := by
  decide

/-- Claim C2 amended: `sendMessage` constructs the ChatMessage from
the fresh uuid and current timestamp, inserts a pending queue entry
with zero attempts, and resolves with the message id — but only after
awaiting one full queue-processing pass (including the immediate
delivery attempt); the resolved state is exactly the enqueued state
run through the queue processor. -/
theorem C2_amended_send_awaits_pass (cfg : ChatConfig)
    (sendOk : String → Nat → Bool) (st : ChatState) (text freshId : String)
    (now : Int) (options : SendMessageOptions) :
    (sendMessage cfg sendOk st text freshId now options).2 = freshId ∧
    (sendMessageEnqueue st text freshId now options).1.messageQueue =
      st.messageQueue ++
        [{ message := { id := freshId, senderId := orUnknown st.currentUserId
                        senderName := none, text := text.trim, ts := now }
           status := .pending, attempts := 0, timestamp := now
           options := options }] ∧
    (sendMessage cfg sendOk st text freshId now options).1 =
      processMessageQueue cfg sendOk (sendMessageEnqueue st text freshId now options).1 :=
  ⟨rfl, rfl, rfl⟩

/-! ## Claim C7: control-traffic wire format -/

/-- Claim C7 as stated is false on the code: the delivery-receipt and
typing-indicator wires carry no top-level `kind` (nor `type`)
discriminator — the control JSON (which itself uses `type`, not
`kind`) is wrapped inside the `text` field of a chat-message
envelope — and a peer running this code surfaces each of them as a
user chat message (one onMessageReceived event). -/
theorem C7_counterexample :
    ((sendDeliveryReceiptWire (some "alice") "m1" "r1" 5).getField "kind").isNone = true ∧
    ((sendDeliveryReceiptWire (some "alice") "m1" "r1" 5).getField "type").isNone = true ∧
    countReceivedEvents
      (handleIncomingData cfg0 (initChat "peer")
        (sendDeliveryReceiptWire (some "alice") "m1" "r1" 5) "x" 6) = 1 ∧
    ((sendTypingIndicatorWire (some "alice") true "t1" 7).getField "kind").isNone = true ∧
    countReceivedEvents
      (handleIncomingData cfg0 (initChat "peer")
        (sendTypingIndicatorWire (some "alice") true "t1" 7) "y" 8) = 1 := by
  decide

/-- Claim C7 amended: outbound control traffic is built as
`type`-discriminated objects, but each is serialized into the `text`
field of a regular chat-message envelope `(id, senderId, text, ts)`
which is what goes on the wire; the top-level object carries no
`kind` or `type` discriminator, validates as a user chat message, and
every receiving peer running this code surfaces it as one. -/
theorem C7_amended_control_wrapped (userId : Option String) (mid freshId : String)
    (now : Int) (b : Bool) (hf : 0 < freshId.length) (hn : 0 < now) :
    ((sendDeliveryReceiptWire userId mid freshId now).getField "kind" = none ∧
     (sendDeliveryReceiptWire userId mid freshId now).getField "type" = none ∧
     (sendDeliveryReceiptWire userId mid freshId now).getStrField "text" =
       some (deliveryReceiptJson { messageId := mid, timestamp := now }) ∧
     isValidChatMessage (sendDeliveryReceiptWire userId mid freshId now) = true) ∧
    ((sendTypingIndicatorWire userId b freshId now).getField "kind" = none ∧
     (sendTypingIndicatorWire userId b freshId now).getField "type" = none ∧
     isValidChatMessage (sendTypingIndicatorWire userId b freshId now) = true) ∧
    (∀ (cfg : ChatConfig) (st : ChatState) (fid2 : String) (now2 : Int),
      (handleIncomingData cfg st (sendDeliveryReceiptWire userId mid freshId now)
          fid2 now2).events =
        st.events ++ [.messageReceived
          (toChatMessage (sendDeliveryReceiptWire userId mid freshId now))]) := by
  have hvr : isValidChatMessage (sendDeliveryReceiptWire userId mid freshId now) = true := by
    show (decide (0 < freshId.length) && decide (0 < (orUnknown userId).length) &&
      decide (0 < (deliveryReceiptJson { messageId := mid, timestamp := now }).length) &&
      decide (0 < now)) = true
    simp [hf, hn, orUnknown_length_pos, deliveryReceiptJson_length_pos]
  have hvt : isValidChatMessage (sendTypingIndicatorWire userId b freshId now) = true := by
    show (decide (0 < freshId.length) && decide (0 < (orUnknown userId).length) &&
      decide (0 < (typingIndicatorJson
        { senderId := orUnknown userId, isTyping := b, timestamp := now }).length) &&
      decide (0 < now)) = true
    simp [hf, hn, orUnknown_length_pos, typingIndicatorJson_length_pos]
  refine ⟨⟨rfl, rfl, rfl, hvr⟩, ⟨rfl, rfl, hvt⟩, ?_⟩
  intro cfg st fid2 now2
  show (handleChatPayload cfg st (sendDeliveryReceiptWire userId mid freshId now)
      fid2 now2).events = _
  unfold handleChatPayload
  simp only [hvr, if_true]
  by_cases hs : some (toChatMessage
      (sendDeliveryReceiptWire userId mid freshId now)).senderId ≠ st.currentUserId <;>
    simp [hs]

/-- Witness for C7: the wrapped receipt and typing wires at concrete
inputs. -/
theorem C7_witness :
    ((sendDeliveryReceiptWire (some "alice") "m1" "r1" 5).getField "kind" = none ∧
     (sendDeliveryReceiptWire (some "alice") "m1" "r1" 5).getField "type" = none ∧
     (sendDeliveryReceiptWire (some "alice") "m1" "r1" 5).getStrField "text" =
       some (deliveryReceiptJson { messageId := "m1", timestamp := 5 }) ∧
     isValidChatMessage (sendDeliveryReceiptWire (some "alice") "m1" "r1" 5) = true) ∧
    ((sendTypingIndicatorWire (some "alice") true "r1" 5).getField "kind" = none ∧
     (sendTypingIndicatorWire (some "alice") true "r1" 5).getField "type" = none ∧
     isValidChatMessage (sendTypingIndicatorWire (some "alice") true "r1" 5) = true) ∧
    (∀ (cfg : ChatConfig) (st : ChatState) (fid2 : String) (now2 : Int),
      (handleIncomingData cfg st (sendDeliveryReceiptWire (some "alice") "m1" "r1" 5)
          fid2 now2).events =
        st.events ++ [.messageReceived
          (toChatMessage (sendDeliveryReceiptWire (some "alice") "m1" "r1" 5))]) :=
  C7_amended_control_wrapped (some "alice") "m1" "r1" 5 true (by decide) (by decide)

/-! ## Claim C8: bounded retry of failing sends -/

/-- Claim C8 confirmed (config modelled from the spec): with
`maxAttempts = 3` and every delivery attempt failing, the entry goes
`pending`, then `failed` with attempts 1, 2 and finally 3; the third
failure notifies the caller exactly once, schedules the purge after
the cleanup grace delay, leaves no retry timer behind, and firing a
further retry is a no-op — the message is never retried again, and
the scheduled purge empties the queue. -/
theorem C8_bounded_retries (b c d e f g h2 k : Nat) :
    (sendMessageEnqueue stConnected "hello" "A" 0 {}).1.messageQueue.map
      (fun q => (q.status, q.attempts)) = [(.pending, 0)] ∧
    (c8AfterSend b c d e f g h2 k).messageQueue.map
      (fun q => (q.status, q.attempts)) = [(.failed, 1)] ∧
    (c8AfterSend b c d e f g h2 k).timers.map Timer.action = [.retryProcess "A"] ∧
    countFailedEvents (c8AfterSend b c d e f g h2 k) = 0 ∧
    (c8AfterRetry1 b c d e f g h2 k).messageQueue.map
      (fun q => (q.status, q.attempts)) = [(.failed, 2)] ∧
    (c8AfterRetry1 b c d e f g h2 k).timers.map Timer.action = [.retryProcess "A"] ∧
    countFailedEvents (c8AfterRetry1 b c d e f g h2 k) = 0 ∧
    (c8AfterRetry2 b c d e f g h2 k).messageQueue.map
      (fun q => (q.status, q.attempts)) = [(.failed, 3)] ∧
    (c8AfterRetry2 b c d e f g h2 k).events = [.messageFailed "A"] ∧
    (c8AfterRetry2 b c d e f g h2 k).timers = [⟨e, .purgeFromQueue "A"⟩] ∧
    c8AfterRetry3 b c d e f g h2 k = c8AfterRetry2 b c d e f g h2 k ∧
    (purgeFromQueue (c8AfterRetry2 b c d e f g h2 k) "A").messageQueue = [] :=
  ⟨rfl, rfl, rfl, rfl, rfl, rfl, rfl, rfl, rfl, rfl, rfl, rfl⟩

/-! ## Claim C9: queue flush on reconnect, in enqueue order -/

/-- A successful delivery attempt appends exactly the message's wire
value to the sent sequence. -/
theorem sendQueuedMessage_sentWire_ok (cfg : ChatConfig)
    (sendOk : String → Nat → Bool) (s : ChatState) (qm : QueuedMessage)
    (hok : sendOk qm.message.id (qm.attempts + 1) = true) :
    (sendQueuedMessage cfg sendOk s qm).sentWire = s.sentWire ++ [qm.message.toWire] := by
  simp [sendQueuedMessage, hok]

/-- With every send succeeding, a pass over a snapshot puts exactly
the snapshot's messages on the wire, in snapshot order. -/
theorem foldl_sendQueued_sentWire (cfg : ChatConfig)
    (sendOk : String → Nat → Bool) (hok : ∀ m n, sendOk m n = true) :
    ∀ (pending : List QueuedMessage) (s : ChatState),
      (pending.foldl (fun s qm => sendQueuedMessage cfg sendOk s qm) s).sentWire =
        s.sentWire ++ pending.map (fun q => q.message.toWire) := by
  intro pending
  induction pending with
  | nil => intro s; simp
  | cons q rest ih =>
    intro s
    rw [List.foldl_cons, ih (sendQueuedMessage cfg sendOk s q),
      sendQueuedMessage_sentWire_ok cfg sendOk s q (hok _ _)]
    simp

/-- A connected queue-processing pass with every send succeeding puts
exactly the pending/failed entries on the wire, ordered by the stable
timestamp sort. -/
theorem processMessageQueue_sentWire (cfg : ChatConfig)
    (sendOk : String → Nat → Bool) (st : ChatState)
    (hconn : st.isConnected = true) (hok : ∀ m n, sendOk m n = true) :
    (processMessageQueue cfg sendOk st).sentWire =
      st.sentWire ++ (sortByTimestamp (st.messageQueue.filter
        (fun qm => qm.status == .pending || qm.status == .failed))).map
          (fun q => q.message.toWire) := by
  unfold processMessageQueue
  rw [hconn]
  simp [foldl_sendQueued_sentWire cfg sendOk hok]

/-- A transition from not-connected into connected re-invokes the
processor: the wire receives exactly the pending/failed entries in
stable timestamp order. -/
theorem handleConnectionStateChanged_flush (cfg : ChatConfig)
    (sendOk : String → Nat → Bool) (st : ChatState)
    (hdisc : st.isConnected = false) (hok : ∀ m n, sendOk m n = true) :
    (handleConnectionStateChanged cfg sendOk st .connected).sentWire =
      st.sentWire ++ (sortByTimestamp (st.messageQueue.filter
        (fun qm => qm.status == .pending || qm.status == .failed))).map
          (fun q => q.message.toWire) := by
  have h2 := processMessageQueue_sentWire cfg sendOk
    { st with isConnected := true } rfl hok
  simp only [handleConnectionStateChanged, hdisc]
  simpa using h2

/-- Claim C9 confirmed, for every set of queued messages: while not
connected the queue processor is a no-op; on the transition into
`connected` the handler re-invokes it and the wire receives exactly
the pending/failed entries in stable ascending-timestamp order; that
order is sorted oldest-first, is a permutation of the snapshot
(nothing lost or duplicated), and keeps FIFO order for equal
timestamps — in particular a queue whose insertion order already
follows enqueue time (the enqueue scenario) is flushed exactly in
enqueue order, as in the concrete A (t = 0) before B (t = 10)
instance. -/
theorem C9_flush_in_enqueue_order :
    (∀ (cfg : ChatConfig) (sendOk : String → Nat → Bool) (st : ChatState),
      st.isConnected = false → processMessageQueue cfg sendOk st = st) ∧
    (∀ (cfg : ChatConfig) (sendOk : String → Nat → Bool) (st : ChatState),
      st.isConnected = false → (∀ m n, sendOk m n = true) →
      (handleConnectionStateChanged cfg sendOk st .connected).sentWire =
        st.sentWire ++ (sortByTimestamp (st.messageQueue.filter
          (fun qm => qm.status == .pending || qm.status == .failed))).map
            (fun q => q.message.toWire)) ∧
    (∀ l : List QueuedMessage, List.Sorted tsLe (sortByTimestamp l)) ∧
    (∀ l : List QueuedMessage, (sortByTimestamp l).Perm l) ∧
    (∀ l : List QueuedMessage, l.Pairwise tsLe → sortByTimestamp l = l) ∧
    (∀ (cfg : ChatConfig) (sendOk : String → Nat → Bool) (st : ChatState),
      st.isConnected = false → (∀ m n, sendOk m n = true) →
      st.messageQueue.Pairwise tsLe →
      (handleConnectionStateChanged cfg sendOk st .connected).sentWire =
        st.sentWire ++ (st.messageQueue.filter
          (fun qm => qm.status == .pending || qm.status == .failed)).map
            (fun q => q.message.toWire)) ∧
    (∀ cfg : ChatConfig,
      (c9AfterEnqueues cfg).messageQueue.map
        (fun q => (q.status, q.attempts, q.message.id)) =
        [(.pending, 0, "A"), (.pending, 0, "B")] ∧
      (c9AfterEnqueues cfg).sentWire = [] ∧
      (c9AfterConnect cfg).sentWire.map (fun w => w.getStrField "id") =
        [some "A", some "B"] ∧
      (c9AfterConnect cfg).messageQueue.map (fun q => (q.status, q.attempts)) =
        [(.sent, 1), (.sent, 1)]) := by
  refine ⟨?_, ?_, ?_, ?_, ?_, ?_, ?_⟩
  · intro cfg sendOk st h
    unfold processMessageQueue
    rw [h]
    simp
  · intro cfg sendOk st h hok
    exact handleConnectionStateChanged_flush cfg sendOk st h hok
  · intro l
    exact List.sorted_insertionSort tsLe l
  · intro l
    exact List.perm_insertionSort tsLe l
  · intro l h
    exact List.Sorted.insertionSort_eq h
  · intro cfg sendOk st h hok hp
    rw [handleConnectionStateChanged_flush cfg sendOk st h hok]
    unfold sortByTimestamp
    rw [List.Sorted.insertionSort_eq (List.Pairwise.filter _ hp)]
  · intro cfg
    exact ⟨rfl, rfl, rfl, rfl⟩

/-- Witness for C9: the processor applied to a fresh disconnected
service changes nothing; flushing the concrete two-message scenario
sends exactly its pending entries in queue order, A before B. -/
theorem C9_witness :
    processMessageQueue cfg0 alwaysOk (initChat "w") = initChat "w" ∧
    (handleConnectionStateChanged cfg0 alwaysOk (c9AfterEnqueues cfg0) .connected).sentWire =
      (c9AfterEnqueues cfg0).sentWire ++ ((c9AfterEnqueues cfg0).messageQueue.filter
        (fun qm => qm.status == .pending || qm.status == .failed)).map
          (fun q => q.message.toWire) ∧
    (c9AfterConnect cfg0).sentWire.map (fun w => w.getStrField "id") =
      [some "A", some "B"] :=
  ⟨C9_flush_in_enqueue_order.1 cfg0 alwaysOk (initChat "w") rfl,
   C9_flush_in_enqueue_order.2.2.2.2.2.1 cfg0 alwaysOk (c9AfterEnqueues cfg0) rfl
     (fun _ _ => rfl) (by decide),
   (C9_flush_in_enqueue_order.2.2.2.2.2.2 cfg0).2.2.1⟩

end SlangFace
